import Mathlib

/-!
Shallow embedding of the welfare eligibility-matching engine of the
`ds5105119/fellows` repository, centred on
`src/app/open_api/service/welfare.py` (`GovWelfareService`), the catalog
model `src/app/open_api/model/welfare.py` (`GovWelfare`), the profile
models `src/app/user/model/user_data.py` (`UserData`, `UserBusinessData`,
`AcademicStatus`) and the generic paginated repository
`src/core/models/repository.py` (`ABaseReadRepository.get_page`).

Modelling conventions:
* SQLAlchemy boolean eligibility flags are modelled as `Bool`; the two
  numeric age-bound columns `JA0110`/`JA0111` are `Option Int` because
  their nullability is semantically relevant to the age filter.
* No negation ever appears above the nullable atoms in a composed WHERE
  clause, so SQL three-valued logic collapses: an atom evaluating to
  SQL NULL never satisfies the clause and is modelled as `false`.
* Monetary amounts are integers; the float ratio ceilings 0.5, 0.75,
  1.0, 2.0 are represented as exact fractions `n/d` and the comparison
  `x <= n/d` as `x * d <= n` (`d > 0`) — Python's int/float comparisons
  are exact at these magnitudes.
* `datetime.now()` is threaded as an explicit `PyDate` argument.
* The Python value of the services' `filters` variable is modelled by
  `PyFilters` (`None`, a single SQLAlchemy clause, or a Python list of
  clauses): truth-testing a clause (`ClauseElement.__bool__`) raises
  `TypeError("Boolean value of this clause is not defined")`, so
  `if filters:` is a fallible operation, modelled in `pyFiltersTruthy`.
* `hasattr(model, name)` is true not only for the mapped columns but
  also for framework-inherited attributes of the declarative base
  (`metadata`, `registry`, `__tablename__`, …); building
  `desc(getattr(model, name))` for such a non-column attribute fails
  (SQLAlchemy rejects the object as an ORDER BY element, or the label
  cannot be resolved), modelled as a single post-validation error.
* `UserData.academic_status` is a plain `Integer` column, while the
  academic `status_mapping` dict is keyed by `AcademicStatus` enum
  members; `Enum.__eq__` against an `int` is `False`, so the dict
  lookup receives keys of a different kind than it stores — modelled by
  the `PyKey` sum type.
-/

namespace Fellows

/-- A calendar date as used by `datetime.date` (year, month, day). -/
structure PyDate where
  year  : Int
  month : Int
  day   : Int
deriving DecidableEq, Repr

/-- Python tuple comparison `(a.month, a.day) < (b.month, b.day)`. -/
def pairLt (a b : Int × Int) : Bool :=
  a.1 < b.1 || (a.1 == b.1 && a.2 < b.2)

/-- Is the char list `pat` a prefix of `hay`? -/
def matchesAt : List Char → List Char → Bool
  | [], _ => true
  | _ :: _, [] => false
  | a :: as, b :: bs => a == b && matchesAt as bs

/-- Substring test over char lists (`pat` occurs somewhere in `hay`). -/
def subOccurs (pat : List Char) : List Char → Bool
  | [] => pat.isEmpty
  | b :: bs => matchesAt pat (b :: bs) || subOccurs pat bs

/-- SQLAlchemy `column.contains(pat)`: SQL `LIKE '%pat%'` substring test. -/
def strContains (hay pat : String) : Bool :=
  subOccurs pat.toList hay.toList

/-- Python membership test `x in l` over a collection of strings. -/
def pyIn (x : String) : List String → Bool
  | [] => false
  | y :: ys => x == y || pyIn x ys

/-- Python truthiness of an optional string (`None` and `""` are falsy),
as used by `if data.tag:` / `if data.keyword:`. -/
def pyTruthy : Option String → Bool
  | none => false
  | some s => !s.isEmpty

/-- Tokenizer modelling the Postgres `simple` text-search configuration:
lowercase and split on non-alphanumeric characters. -/
def splitTokens : List Char → List Char → List String
  | [], acc => if acc.isEmpty then [] else [String.mk acc.reverse]
  | c :: cs, acc =>
    if c.isAlphanum then splitTokens cs (c.toLower :: acc)
    else if acc.isEmpty then splitTokens cs []
    else String.mk acc.reverse :: splitTokens cs []

/-- Model of the business keyword filter
`to_tsvector('simple', service_name) || to_tsvector('simple', service_summary)
 @@ websearch_to_tsquery('simple', keyword)`:
every token of the keyword occurs among the tokens of name + summary. -/
def tsMatch (name summary keyword : String) : Bool :=
  let doc := splitTokens name.toList [] ++ splitTokens summary.toList []
  (splitTokens keyword.toList []).all (fun t => doc.contains t)

/-- A cell value of a projected catalog row. -/
inductive Value where
  | vInt  (i : Int)
  | vStr  (s : String)
  | vBool (b : Bool)
  | vNull
deriving DecidableEq, Repr

/-- A projected row: column name paired with the cell value, in the
order of the service's column list (`result.mappings()` keeps it). -/
abbrev Row := List (String × Value)

/-- Catalog entry: one row of the `gov_welfare` table
(`src/app/open_api/model/welfare.py`, class `GovWelfare`). -/
structure GovWelfare where
  id : Int
  created_at : String
  updated_at : String
  views : Int
  user_type : String
  service_id : String
  service_name : String
  service_summary : String
  service_category : String
  service_conditions : String
  service_description : String
  offc_name : String
  dept_name : String
  dept_type : String
  dept_code : String
  apply_period : String
  apply_method : String
  apply_url : String
  document : String
  receiving_agency : String
  contact : String
  support_details : String
  support_targets : String
  support_type : String
  detail_url : String
  law : String
  JA0110 : Option Int
  JA0111 : Option Int
  JA0101 : Bool
  JA0102 : Bool
  JA0201 : Bool
  JA0202 : Bool
  JA0203 : Bool
  JA0204 : Bool
  JA0205 : Bool
  JA0301 : Bool
  JA0302 : Bool
  JA0303 : Bool
  JA0313 : Bool
  JA0314 : Bool
  JA0315 : Bool
  JA0316 : Bool
  JA0317 : Bool
  JA0318 : Bool
  JA0319 : Bool
  JA0320 : Bool
  JA0322 : Bool
  JA0326 : Bool
  JA0327 : Bool
  JA0328 : Bool
  JA0329 : Bool
  JA0330 : Bool
  JA0401 : Bool
  JA0402 : Bool
  JA0403 : Bool
  JA0404 : Bool
  JA0410 : Bool
  JA0411 : Bool
  JA0412 : Bool
  JA0413 : Bool
  JA0414 : Bool
  JA1101 : Bool
  JA1102 : Bool
  JA1103 : Bool
  JA1201 : Bool
  JA1202 : Bool
  JA1299 : Bool
  JA2101 : Bool
  JA2102 : Bool
  JA2103 : Bool
  JA2201 : Bool
  JA2202 : Bool
  JA2203 : Bool
  JA2299 : Bool
deriving DecidableEq, Repr

/-- `AcademicStatus` enum (`src/app/user/model/user_data.py`); the
member values are 0–4 (`none = 0`, … `university_stu = 4`). -/
inductive AcademicStatus where
  | none
  | elementary_stu
  | middle_stu
  | high_stu
  | university_stu
deriving DecidableEq, Repr

/-- A Python value usable as a `status_mapping` dict key or as the
looked-up `user_data.academic_status`: the dict is keyed by
`AcademicStatus` enum members, while the loaded column value is a plain
`int` — and a plain `enum.Enum` member never equals an `int`. -/
inductive PyKey where
  | pyInt (i : Int)
  | pyEnum (a : AcademicStatus)
deriving DecidableEq, Repr

/-- Python `==` between dict-key values: ints compare by value, enum
members by identity, and an enum member never equals an int
(`Enum.__eq__` returns `NotImplemented`, falling back to `False`). -/
def pyKeyEq : PyKey → PyKey → Bool
  | .pyInt i, .pyInt j => i == j
  | .pyEnum a, .pyEnum b => a == b
  | _, _ => false

/-- Personal profile: one row of `user_data`
(`src/app/user/model/user_data.py`, class `UserData`).
`overcome` and `household_size` are nullable integers; the boolean
answers default to `False` and are modelled as `Bool`. -/
structure UserData where
  overcome : Option Int
  household_size : Option Int
  multicultural : Bool
  north_korean : Bool
  single_parent_or_grandparent : Bool
  homeless : Bool
  new_resident : Bool
  multi_child_family : Bool
  extend_family : Bool
  disable : Bool
  veteran : Bool
  disease : Bool
  prospective_parents_or_infertility : Bool
  pregnant : Bool
  childbirth_or_adoption : Bool
  farmers : Bool
  fishermen : Bool
  livestock_farmers : Bool
  forestry_workers : Bool
  unemployed : Bool
  employed : Bool
  academic_status : Int
deriving DecidableEq, Repr

/-- Business profile: one row of `user_business_data`
(`src/app/user/model/user_data.py`, class `UserBusinessData`). -/
structure UserBusinessData where
  JA1101 : Bool
  JA1102 : Bool
  JA1103 : Bool
  JA1201 : Bool
  JA1202 : Bool
  JA1299 : Bool
  JA2101 : Bool
  JA2102 : Bool
  JA2103 : Bool
  JA2201 : Bool
  JA2202 : Bool
  JA2203 : Bool
  JA2299 : Bool
deriving DecidableEq, Repr

/-- The requester identity (`src/core/dependencies/auth.py`, class `User`),
restricted to the fields the matching engine reads.  The service guards
both fields against `None`, so they are modelled as optional. -/
structure AuthUser where
  birthdate : Option PyDate
  gender : Option String
deriving DecidableEq, Repr

/-- Modelled from the spec: the request shape `WelfareDto`
(`src/app/open_api/schema/welfare.py` is absent from the source tree; the
fields are those the service reads — page/size/order_by/tag/keyword, per
the spec's `search(type, requester, tag?, keyword?, order_by, page, size)`
contract). -/
structure WelfareDto where
  page : Nat
  size : Nat
  order_by : String
  tag : Option String
  keyword : Option String
deriving DecidableEq, Repr

/-- The mapped column names of the `GovWelfare` model, in declaration
order.  This is the attribute set consulted by
`hasattr(self.repository.model, data.order_by)` (framework-inherited,
non-column attributes of the declarative base are not modelled). -/
def govWelfareColumns : List String :=
  ["id", "created_at", "updated_at", "views", "user_type",
   "service_id", "service_name", "service_summary", "service_category",
   "service_conditions", "service_description",
   "offc_name", "dept_name", "dept_type", "dept_code",
   "apply_period", "apply_method", "apply_url", "document",
   "receiving_agency", "contact",
   "support_details", "support_targets", "support_type",
   "detail_url", "law",
   "JA0110", "JA0111", "JA0101", "JA0102",
   "JA0201", "JA0202", "JA0203", "JA0204", "JA0205",
   "JA0301", "JA0302", "JA0303",
   "JA0313", "JA0314", "JA0315", "JA0316",
   "JA0317", "JA0318", "JA0319", "JA0320", "JA0322",
   "JA0326", "JA0327", "JA0328", "JA0329", "JA0330",
   "JA0401", "JA0402", "JA0403", "JA0404",
   "JA0410", "JA0411", "JA0412", "JA0413", "JA0414",
   "JA1101", "JA1102", "JA1103", "JA1201", "JA1202", "JA1299",
   "JA2101", "JA2102", "JA2103",
   "JA2201", "JA2202", "JA2203", "JA2299"]

/-- Non-column attributes visible on the declarative model class and
hence accepted by `hasattr` as well: SQLAlchemy declarative-base
machinery inherited by `GovWelfare`.  (Representative set; every such
attribute is an object or string that is not a mapped column.) -/
def govWelfareNonColumnAttrs : List String :=
  ["metadata", "registry", "__tablename__", "__table__", "__mapper__",
   "__table_args__", "__init__"]

/-- `hasattr(self.repository.model, name)`: true for the mapped columns
and for the framework-inherited non-column attributes. -/
def hasAttrGovWelfare (name : String) : Bool :=
  govWelfareColumns.contains name || govWelfareNonColumnAttrs.contains name

/-- `getattr(entry, column)` as a tagged value (used for ordering and
row projection). -/
def colValue (e : GovWelfare) : String → Value
  | "id" => .vInt e.id
  | "created_at" => .vStr e.created_at
  | "updated_at" => .vStr e.updated_at
  | "views" => .vInt e.views
  | "user_type" => .vStr e.user_type
  | "service_id" => .vStr e.service_id
  | "service_name" => .vStr e.service_name
  | "service_summary" => .vStr e.service_summary
  | "service_category" => .vStr e.service_category
  | "service_conditions" => .vStr e.service_conditions
  | "service_description" => .vStr e.service_description
  | "offc_name" => .vStr e.offc_name
  | "dept_name" => .vStr e.dept_name
  | "dept_type" => .vStr e.dept_type
  | "dept_code" => .vStr e.dept_code
  | "apply_period" => .vStr e.apply_period
  | "apply_method" => .vStr e.apply_method
  | "apply_url" => .vStr e.apply_url
  | "document" => .vStr e.document
  | "receiving_agency" => .vStr e.receiving_agency
  | "contact" => .vStr e.contact
  | "support_details" => .vStr e.support_details
  | "support_targets" => .vStr e.support_targets
  | "support_type" => .vStr e.support_type
  | "detail_url" => .vStr e.detail_url
  | "law" => .vStr e.law
  | "JA0110" => match e.JA0110 with | some i => .vInt i | _ => .vNull
  | "JA0111" => match e.JA0111 with | some i => .vInt i | _ => .vNull
  | "JA0101" => .vBool e.JA0101
  | "JA0102" => .vBool e.JA0102
  | "JA0201" => .vBool e.JA0201
  | "JA0202" => .vBool e.JA0202
  | "JA0203" => .vBool e.JA0203
  | "JA0204" => .vBool e.JA0204
  | "JA0205" => .vBool e.JA0205
  | "JA0301" => .vBool e.JA0301
  | "JA0302" => .vBool e.JA0302
  | "JA0303" => .vBool e.JA0303
  | "JA0313" => .vBool e.JA0313
  | "JA0314" => .vBool e.JA0314
  | "JA0315" => .vBool e.JA0315
  | "JA0316" => .vBool e.JA0316
  | "JA0317" => .vBool e.JA0317
  | "JA0318" => .vBool e.JA0318
  | "JA0319" => .vBool e.JA0319
  | "JA0320" => .vBool e.JA0320
  | "JA0322" => .vBool e.JA0322
  | "JA0326" => .vBool e.JA0326
  | "JA0327" => .vBool e.JA0327
  | "JA0328" => .vBool e.JA0328
  | "JA0329" => .vBool e.JA0329
  | "JA0330" => .vBool e.JA0330
  | "JA0401" => .vBool e.JA0401
  | "JA0402" => .vBool e.JA0402
  | "JA0403" => .vBool e.JA0403
  | "JA0404" => .vBool e.JA0404
  | "JA0410" => .vBool e.JA0410
  | "JA0411" => .vBool e.JA0411
  | "JA0412" => .vBool e.JA0412
  | "JA0413" => .vBool e.JA0413
  | "JA0414" => .vBool e.JA0414
  | "JA1101" => .vBool e.JA1101
  | "JA1102" => .vBool e.JA1102
  | "JA1103" => .vBool e.JA1103
  | "JA1201" => .vBool e.JA1201
  | "JA1202" => .vBool e.JA1202
  | "JA1299" => .vBool e.JA1299
  | "JA2101" => .vBool e.JA2101
  | "JA2102" => .vBool e.JA2102
  | "JA2103" => .vBool e.JA2103
  | "JA2201" => .vBool e.JA2201
  | "JA2202" => .vBool e.JA2202
  | "JA2203" => .vBool e.JA2203
  | "JA2299" => .vBool e.JA2299
  | _ => .vNull

/-- Projection of a catalog entry onto a column list, modelling
`select(...).with_only_columns(*columns)` plus `result.mappings()`. -/
def projectRow (columns : List String) (e : GovWelfare) : Row :=
  columns.map (fun c => (c, colValue e c))

/-- Comparison on cell values used for `ORDER BY ... DESC`; values of an
order column are homogeneous, cross-type comparison never arises. -/
def valueLt : Value → Value → Bool
  | .vInt a, .vInt b => a < b
  | .vStr a, .vStr b => a < b
  | .vBool a, .vBool b => !a && b
  | _, _ => false

/-- Insert into a descending-sorted list, after all entries whose key is
not smaller (keeps storage order on ties). -/
def insertDesc (key : α → Value) (x : α) : List α → List α
  | [] => [x]
  | y :: ys => if valueLt (key y) (key x) then x :: y :: ys
               else y :: insertDesc key x ys

/-- Stable descending sort by a key, modelling `ORDER BY key DESC` with
ties left in storage order. -/
def sortDescBy (key : α → Value) (l : List α) : List α :=
  l.foldl (fun acc x => insertDesc key x acc) []

/-- A predicate over catalog entries (a WHERE-clause fragment). -/
abbrev Pred := GovWelfare → Bool

/-- The ways a welfare request can fail:
* `invalidOrderColumn` — `HTTPException(404, "Order Column name was Not
  found")` raised when the `hasattr` check fails (the spec's
  `InvalidOrderColumn`);
* `typeError` — the uncaught Python
  `TypeError("Boolean value of this clause is not defined")` raised by
  `ClauseElement.__bool__` when `if filters:` truth-tests a SQLAlchemy
  clause;
* `invalidOrderExpression` — the failure of
  `desc(getattr(model, order_by))` / statement compilation when
  `order_by` names a non-column model attribute (SQLAlchemy rejects the
  object as an ORDER BY element or cannot resolve the label). -/
inductive ServiceError where
  | invalidOrderColumn
  | typeError
  | invalidOrderExpression
deriving DecidableEq, Repr

/-- The Python value held by the services' `filters` variable: `None`,
a single SQLAlchemy clause (an `and_(...)` `BooleanClauseList`), or a
Python list of clauses. -/
inductive PyFilters where
  | none
  | clause (p : Pred)
  | list (ps : List Pred)

/-- Python `bool(filters)` as evaluated by `if filters:`
(welfare.py line 233 and repository.py line 221): `None` is falsy, a
list is truthy iff nonempty, and truth-testing a SQLAlchemy clause
raises `TypeError` (`ClauseElement.__bool__`). -/
def pyFiltersTruthy : PyFilters → Except ServiceError Bool
  | PyFilters.none => .ok false
  | PyFilters.clause _ => .error .typeError
  | PyFilters.list ps => .ok (!ps.isEmpty)

/-- The `if filters: stmt = stmt.where(*filters)` step of
`ABaseReadRepository.get` (`src/core/models/repository.py`, line 221):
the truth test may raise; a truthy sequence of clauses is applied as a
conjunction.  (The `clause` arm of the inner match — `where(*clause)`
iterating the clause list's conjuncts — is unreachable, because the
truth test on a clause has already raised.) -/
def whereRows (catalog : List GovWelfare) (filters : PyFilters) :
    Except ServiceError (List GovWelfare) :=
  match pyFiltersTruthy filters with
  | .error e => .error e
  | .ok false => .ok catalog
  | .ok true =>
    match filters with
    | PyFilters.list ps => .ok (catalog.filter (fun e => ps.all (fun f => f e)))
    | PyFilters.clause p => .ok (catalog.filter p)
    | PyFilters.none => .ok catalog

/-- `desc(getattr(self.repository.model, data.order_by))`, evaluated at
the `get_page` call site: a mapped column yields its ordering key; a
non-column attribute (metadata, registry, `__tablename__`, a method) is
not a SQL column element and the ORDER BY construction/compilation
fails — collapsed to the single modelled error. -/
def buildOrderKey (name : String) : Except ServiceError (GovWelfare → Value) :=
  if govWelfareColumns.contains name then .ok (fun e => colValue e name)
  else .error .invalidOrderExpression

/-- `ABaseReadRepository.get_page` + `.get`
(`src/core/models/repository.py`, lines 204–274) over an in-memory
catalog: `SELECT columns FROM catalog WHERE ... ORDER BY key DESC
OFFSET page*size FETCH size`, returning the projected row mappings
(`result.mappings().all()`); the WHERE step may raise at the
`if filters:` truth test. -/
def getPage (catalog : List GovWelfare) (page size : Nat)
    (filters : PyFilters) (columns : List String)
    (key : GovWelfare → Value) : Except ServiceError (List Row) :=
  match whereRows catalog filters with
  | .error e => .error e
  | .ok rows =>
    let ordered := sortDescBy key rows
    .ok (((ordered.drop (page * size)).take size).map (projectRow columns))

/-- `PaginatedResult` (`src/core/models/repository.py`): the shape
returned by `get_page_with_total`, which the welfare service does NOT
use — kept to state the claimed `{total, items}` contract. -/
structure PaginatedResult where
  total : Int
  items : List Row
deriving DecidableEq, Repr

/-- `get_page_with_total` (`src/core/models/repository.py`, lines
276–301): a count query (same filters, so the same truth test) plus the
page fetch. -/
def getPageWithTotal (catalog : List GovWelfare) (page size : Nat)
    (filters : PyFilters) (columns : List String)
    (key : GovWelfare → Value) : Except ServiceError PaginatedResult :=
  match whereRows catalog filters with
  | .error e => .error e
  | .ok matching =>
    let total : Int := matching.length
    if total = 0 then .ok ⟨0, []⟩
    else
      match getPage catalog page size filters columns key with
      | .error e => .error e
      | .ok items => .ok ⟨total, items⟩

/-- `GovWelfareService._type_filter` (`welfare.py`, lines 50–62):
an OR of `user_type.contains(...)` matches for the personal-facing or the
business-facing category labels. -/
def typeFilter (t : String) : Pred := fun e =>
  if t == "user" then
    strContains e.user_type "개인" || strContains e.user_type "가구"
  else
    strContains e.user_type "법인" || strContains e.user_type "시설" ||
    strContains e.user_type "단체" || strContains e.user_type "소상공인"

/-- `GovWelfareService._age_filter` (`welfare.py`, lines 64–79).
`age` is computed from `datetime.now()` (threaded here as `now`).  The
source's `self.repository.model.JA0110 is None` is a Python identity
test on the column object, hence the constant `False`, and a NULL SQL
comparison never satisfies the clause; both collapse to `false` here. -/
def ageFilter (user : AuthUser) (now : PyDate) : Option Pred :=
  match user.birthdate with
  | Option.none => none
  | some b =>
    let age0 := now.year - b.year
    let age := if pairLt (now.month, now.day) (b.month, b.day) then age0 - 1 else age0
    some (fun e =>
      (match e.JA0110 with | some lo => decide (lo ≤ age) | Option.none => false) &&
      (match e.JA0111 with | some hi => decide (hi ≥ age) | Option.none => false))

/-- `GovWelfareService._gender_filter` (`welfare.py`, lines 81–89). -/
def genderFilter (user : AuthUser) : Option Pred :=
  match user.gender with
  | Option.none => none
  | some g =>
    if g == "male" then some (fun e => e.JA0101)
    else if g == "female" then some (fun e => e.JA0102)
    else none

/-- The household-size → currency-threshold lookup of
`GovWelfareService._overcome_filter` (`welfare.py`, lines 95–103): a
`dict.get` with the linear-extrapolation default
`8988428 + 923623 * (household_size - 7)`. -/
def overcomeThreshold (household_size : Int) : Int :=
  if household_size = 1 then 2392013
  else if household_size = 2 then 3932658
  else if household_size = 3 then 5025253
  else if household_size = 4 then 6097773
  else if household_size = 5 then 7108192
  else if household_size = 6 then 8064805
  else if household_size = 7 then 8988428
  else 8988428 + 923623 * (household_size - 7)

/-- The `default_filter` of `_overcome_filter` (lines 105–111): all five
income-bracket flags false. -/
def overcomeDefaultFilter : Pred := fun e =>
  !e.JA0201 && !e.JA0202 && !e.JA0203 && !e.JA0204 && !e.JA0205

/-- The ascending `(ratio_ceiling, condition)` list of `_overcome_filter`
(lines 113–119); a ceiling is an exact fraction `(num, den)` — 0.5, 0.75,
1.0, 2.0 — and `Option.none` stands for `float("inf")`. -/
def overcomeBrackets : List (Option (Int × Int) × Pred) :=
  [(some (1, 2), fun e => e.JA0201),
   (some (3, 4), fun e => e.JA0202),
   (some (1, 1), fun e => e.JA0203),
   (some (2, 1), fun e => e.JA0204),
   (Option.none, fun e => e.JA0205)]

/-- `x <= ceiling` where the ceiling may be `float("inf")`: the exact
comparison of the integer `x` with the fraction `num/den`. -/
def leCeiling (x : Int) : Option (Int × Int) → Bool
  | Option.none => true
  | some (num, den) => decide (x * den ≤ num)

/-- The selection loop of `_overcome_filter` (lines 121–123): return the
condition of the first pair whose ceiling is `>=` the compared value. -/
def firstBracket (x : Int) : List (Option (Int × Int) × Pred) → Option Pred
  | [] => none
  | (c, cond) :: rest => if leCeiling x c then some cond else firstBracket x rest

/-- `GovWelfareService._overcome_filter` (`welfare.py`, lines 91–123).
NOTE (faithful to the source): the variable the source names
`overcome_ratio` is assigned the looked-up currency threshold itself;
`user_data.overcome` is checked for `None` but never divided by the
threshold, so the ceiling walk compares a multi-million-won amount with
the ceilings 0.5 … 2.0 and `inf`. -/
def overcomeFilter (user_data : Option UserData) : Option Pred :=
  match user_data with
  | Option.none => none
  | some d =>
    match d.overcome, d.household_size with
    | some _, some hh =>
      let overcome_ratio : Int := overcomeThreshold hh
      (firstBracket overcome_ratio overcomeBrackets).map
        (fun cond => fun e => overcomeDefaultFilter e || cond e)
    | _, _ => none

/-- `GovWelfareService._family_status_filter` (`welfare.py`, lines
125–149).  The `JA0404` disjunct is the Python conditional
`... if user_data.household_size == 1 else None`; the `None` arm is a
SQL NULL operand of `or_`, which never satisfies the disjunction and
collapses to `false`. -/
def familyStatusFilter (user_data : Option UserData) : Option Pred :=
  match user_data with
  | Option.none => none
  | some d => some (fun e =>
      (e.JA0401 == d.multicultural) ||
      (e.JA0402 == d.north_korean) ||
      (e.JA0403 == d.single_parent_or_grandparent) ||
      (if d.household_size == some 1 then e.JA0404 else false) ||
      e.JA0410 ||
      (e.JA0411 == d.multi_child_family) ||
      (e.JA0412 == d.homeless) ||
      (e.JA0413 == d.new_resident) ||
      (e.JA0414 == d.extend_family) ||
      (!e.JA0401 && !e.JA0402 && !e.JA0403 && !e.JA0404 && !e.JA0410 &&
       !e.JA0411 && !e.JA0412 && !e.JA0413 && !e.JA0414))

/-- `GovWelfareService._other_status_filter` (`welfare.py`, lines 151–158). -/
def otherStatusFilter (user_data : Option UserData) : Option Pred :=
  match user_data with
  | Option.none => none
  | some d => some (fun e =>
      (e.JA0328 == d.disable) || (e.JA0329 == d.veteran) || (e.JA0330 == d.disease))

/-- `GovWelfareService._life_status_filter` (`welfare.py`, lines 160–167). -/
def lifeStatusFilter (user_data : Option UserData) : Option Pred :=
  match user_data with
  | Option.none => none
  | some d => some (fun e =>
      (e.JA0301 == d.prospective_parents_or_infertility) ||
      (e.JA0302 == d.pregnant) ||
      (e.JA0303 == d.childbirth_or_adoption))

/-- `GovWelfareService._primary_industry_status_filter` (`welfare.py`,
lines 169–177). -/
def primaryIndustryStatusFilter (user_data : Option UserData) : Option Pred :=
  match user_data with
  | Option.none => none
  | some d => some (fun e =>
      (e.JA0313 == d.farmers) || (e.JA0314 == d.fishermen) ||
      (e.JA0315 == d.livestock_farmers) || (e.JA0316 == d.forestry_workers))

/-- Python `dict.get(key)` over a `status_mapping` dict: first entry
whose key compares `==` to the probe, else `None`. -/
def pyLookup : List (PyKey × Pred) → PyKey → Option Pred
  | [], _ => none
  | (k, v) :: rest, key => if pyKeyEq key k then some v else pyLookup rest key

/-- `GovWelfareService._user_data_filter` (`welfare.py`, lines 27–48):
generic status-mapping builder.  `status_mapping.get(primary_status_field)`
is a dict lookup; a missed lookup takes the `filter_on_empty` branch.
When `user_data` is falsy the Python function falls through and returns
`None`.  (In every call site the dict is keyed by `AcademicStatus` enum
members while `primary_status_field` is the profile's plain integer
column value, so the lookup always misses and the `primary_column`
branch is unreachable in the program; it is modelled anyway.) -/
def userDataFilter (user_data : Option UserData)
    (status_mapping : List (PyKey × Pred))
    (primary_status_field : PyKey)
    (filter_on_exist filter_on_empty : List Pred) : Option Pred :=
  match user_data with
  | Option.none => none
  | some _ =>
    match pyLookup status_mapping primary_status_field with
    | some primary_column =>
      some (fun e =>
        primary_column e ||
        status_mapping.all (fun p => !p.2 e) ||
        filter_on_exist.any (fun f => f e))
    | Option.none =>
      some (fun e =>
        status_mapping.all (fun p => p.2 e) ||
        status_mapping.all (fun p => !p.2 e) ||
        filter_on_empty.any (fun f => f e))

/-- The `status_mapping` of `_academic_status_filter` (`welfare.py`,
lines 181–186), keyed by `AcademicStatus` enum members. -/
def academicStatusMapping : List (PyKey × Pred) :=
  [(PyKey.pyEnum AcademicStatus.elementary_stu, fun e => e.JA0317),
   (PyKey.pyEnum AcademicStatus.middle_stu,     fun e => e.JA0318),
   (PyKey.pyEnum AcademicStatus.high_stu,       fun e => e.JA0319),
   (PyKey.pyEnum AcademicStatus.university_stu, fun e => e.JA0320)]

/-- `GovWelfareService._academic_status_filter` (`welfare.py`, lines
179–193): delegates to `_user_data_filter` with `JA0322 == True` as both
the `filter_on_exist` and `filter_on_empty` extra disjunct, passing the
profile's integer `academic_status` as the primary field. -/
def academicStatusFilter (user_data : Option UserData) : Option Pred :=
  match user_data with
  | Option.none => none
  | some d =>
    userDataFilter (some d) academicStatusMapping (PyKey.pyInt d.academic_status)
      [fun e => e.JA0322] [fun e => e.JA0322]

/-- The demographic filter composed for a loaded personal profile
(`get_personal_welfare`, `welfare.py` lines 208–230): the four OR-group
builders, the four AND-group builders, and
`and_(or_(*or_conditions), *and_conditions) if or_conditions else
and_(*and_conditions)`. -/
def personalDemographic (user : AuthUser) (d : UserData) (now : PyDate) : Pred :=
  let or_conditions : List Pred :=
    [familyStatusFilter (some d),
     lifeStatusFilter (some d),
     otherStatusFilter (some d),
     primaryIndustryStatusFilter (some d)].filterMap id
  let and_conditions : List Pred :=
    [academicStatusFilter (some d),
     overcomeFilter (some d),
     genderFilter user,
     ageFilter user now].filterMap id
  if or_conditions.isEmpty then
    fun e => and_conditions.all (fun f => f e)
  else
    fun e => or_conditions.any (fun f => f e) && and_conditions.all (fun f => f e)

/-- The tag filter `support_type.contains(data.tag)` on an entry. -/
def tagPred (dto : WelfareDto) : Pred := fun e =>
  strContains e.support_type (dto.tag.getD "")

/-- The value of `filters` after `get_personal_welfare` lines 201–230:
`None` for an anonymous or profile-less requester, the single
`and_(...)` clause of the composed demographic predicate for a loaded
profile.  `user_data` stands for the result of
`user_data_repository.get_user_data`, consulted only when a requester
is authenticated. -/
def personalFiltersVar (user : Option AuthUser) (user_data : Option UserData)
    (now : PyDate) : PyFilters :=
  match user with
  | Option.none => PyFilters.none
  | some u =>
    match user_data with
    | Option.none => PyFilters.none
    | some d => PyFilters.clause (personalDemographic u d now)

/-- The tag block of `get_personal_welfare` (`welfare.py`, lines
232–243).  With a tag present, line 233 truth-tests `filters`
(`if filters:`): for a loaded profile `filters` is an `and_()` clause
and the test raises `TypeError`; otherwise the list
`[tag, type]` is assembled.  (The `and_(filters, tag, type)` arm is
unreachable: any truthy `filters` here is a clause, whose truth test
has already raised.)  The keyword is never consulted on this path. -/
def personalAssembleFilters (user : Option AuthUser) (user_data : Option UserData)
    (dto : WelfareDto) (now : PyDate) : Except ServiceError PyFilters :=
  let filters := personalFiltersVar user user_data now
  if pyTruthy dto.tag then
    match pyFiltersTruthy filters with
    | .error e => .error e
    | .ok true =>
      match filters with
      | PyFilters.clause p =>
        .ok (PyFilters.clause (fun e => p e && tagPred dto e && typeFilter "user" e))
      | f => .ok f
    | .ok false => .ok (PyFilters.list [tagPred dto, typeFilter "user"])
  else .ok filters

/-- The projection column list of `get_personal_welfare` (`welfare.py`,
lines 250–267). -/
def personalColumns : List String :=
  ["id", "views", "service_id", "service_name", "service_summary",
   "service_category", "service_conditions", "service_description",
   "apply_period", "apply_url", "detail_url", "document",
   "receiving_agency", "offc_name", "contact", "support_details"]

/-- `GovWelfareService.get_personal_welfare` (`welfare.py`, lines
195–271): the `hasattr` validation, the filter assembly (which may
raise at the tag block's truth test), the ORDER BY construction at the
call site, then the paged query (whose own `if filters:` truth test may
raise), returning the row mappings. -/
def getPersonalWelfare (catalog : List GovWelfare) (dto : WelfareDto)
    (user : Option AuthUser) (user_data : Option UserData) (now : PyDate) :
    Except ServiceError (List Row) :=
  if hasAttrGovWelfare dto.order_by then
    match personalAssembleFilters user user_data dto now with
    | .error e => .error e
    | .ok filters =>
      match buildOrderKey dto.order_by with
      | .error e => .error e
      | .ok key => getPage catalog dto.page dto.size filters personalColumns key
  else
    .error .invalidOrderColumn

/-- The JA columns of `UserBusinessData` in table declaration order —
the set iterated by `business_data.__table__.columns.keys()` filtered to
names starting with `"JA"`. -/
def businessJaCodes : List String :=
  ["JA1101", "JA1102", "JA1103",
   "JA1201", "JA1202", "JA1299",
   "JA2101", "JA2102", "JA2103",
   "JA2201", "JA2202", "JA2203", "JA2299"]

/-- `getattr(business_data, name, False)` for the JA columns. -/
def businessFlag (b : UserBusinessData) : String → Bool
  | "JA1101" => b.JA1101
  | "JA1102" => b.JA1102
  | "JA1103" => b.JA1103
  | "JA1201" => b.JA1201
  | "JA1202" => b.JA1202
  | "JA1299" => b.JA1299
  | "JA2101" => b.JA2101
  | "JA2102" => b.JA2102
  | "JA2103" => b.JA2103
  | "JA2201" => b.JA2201
  | "JA2202" => b.JA2202
  | "JA2203" => b.JA2203
  | "JA2299" => b.JA2299
  | _ => false

/-- `getattr(self.repository.model, ja)` as a boolean catalog flag, for
the business classification codes. -/
def entryFlag (e : GovWelfare) : String → Bool
  | "JA1101" => e.JA1101
  | "JA1102" => e.JA1102
  | "JA1103" => e.JA1103
  | "JA1201" => e.JA1201
  | "JA1202" => e.JA1202
  | "JA1299" => e.JA1299
  | "JA2101" => e.JA2101
  | "JA2102" => e.JA2102
  | "JA2103" => e.JA2103
  | "JA2201" => e.JA2201
  | "JA2202" => e.JA2202
  | "JA2203" => e.JA2203
  | "JA2299" => e.JA2299
  | _ => false

/-- `user_true_ja_attributes` (`welfare.py`, lines 326–330): the JA
column names of the business profile whose value is truthy. -/
def userTrueJaAttributes (b : UserBusinessData) : List String :=
  businessJaCodes.filter (businessFlag b)

/-- `condition_groups` (`welfare.py`, lines 333–337). -/
def conditionGroups : List (String × List String) :=
  [("status",   ["JA1101", "JA1102", "JA1103"]),
   ("industry", ["JA1201", "JA1202", "JA1299", "JA2201", "JA2202", "JA2203", "JA2299"]),
   ("org_type", ["JA2101", "JA2102", "JA2103"])]

/-- One `group_check_clause` of `get_business_welfare` (`welfare.py`,
lines 341–354): `or_(~service_requires_group,
user_matches_group_requirement)`.  The Python membership test
`ja in user_true_ja_attributes` is a constant boolean AND-ed into the
SQL condition. -/
def groupCheck (b : UserBusinessData) (group_codes : List String) : Pred := fun e =>
  let service_requires_group := group_codes.any (fun ja => entryFlag e ja)
  let user_matches_group_requirement :=
    group_codes.any (fun ja => entryFlag e ja && pyIn ja (userTrueJaAttributes b))
  !service_requires_group || user_matches_group_requirement

/-- The `specific_filter` of `get_business_welfare` (`welfare.py`, lines
325–359): the AND of the three group checks, built only when the
business profile exists and has at least one truthy JA attribute. -/
def specificFilter (business_data : Option UserBusinessData) : Option Pred :=
  match business_data with
  | Option.none => none
  | some b =>
    if (userTrueJaAttributes b).isEmpty then none
    else some (fun e => conditionGroups.all (fun g => groupCheck b g.2 e))

/-- The keyword filter of `get_business_welfare` (`welfare.py`, lines
312–317), modelled by `tsMatch` over name and summary. -/
def keywordPred (dto : WelfareDto) : Pred := fun e =>
  tsMatch e.service_name e.service_summary (dto.keyword.getD "")

/-- The WHERE-clause assembly of `get_business_welfare` (`welfare.py`,
lines 283–362): optional tag filter, optional keyword filter, the
business type filter, then the optional group-requirement filter. -/
def businessFilters (dto : WelfareDto) (business_data : Option UserBusinessData) :
    List Pred :=
  (if pyTruthy dto.tag then [tagPred dto] else []) ++
  (if pyTruthy dto.keyword then [keywordPred dto] else []) ++
  [typeFilter "business"] ++
  (match specificFilter business_data with
   | some f => [f]
   | Option.none => [])

/-- The projection column list of `get_business_welfare` (`welfare.py`,
lines 287–307). -/
def businessColumns : List String :=
  ["id", "views", "service_id", "service_name", "service_summary",
   "service_category", "service_conditions", "service_description",
   "apply_period", "apply_url", "detail_url", "document",
   "receiving_agency", "offc_name", "dept_name", "dept_type", "contact",
   "support_details", "support_targets"]

/-- `GovWelfareService.get_business_welfare` (`welfare.py`, lines
273–373).  `business_data` stands for the result of
`get_business_data`, consulted only when a requester is authenticated.
The assembled `filters` is a genuine Python list here, so its truth
test inside the repository cannot raise; the ORDER BY construction at
the call site can still fail for a non-column `order_by`. -/
def getBusinessWelfare (catalog : List GovWelfare) (dto : WelfareDto)
    (user : Option AuthUser) (business_data : Option UserBusinessData) :
    Except ServiceError (List Row) :=
  if hasAttrGovWelfare dto.order_by then
    match buildOrderKey dto.order_by with
    | .error e => .error e
    | .ok key =>
      getPage catalog dto.page dto.size
        (PyFilters.list (businessFilters dto
          (match user with | Option.none => none | some _ => business_data)))
        businessColumns key
  else
    .error .invalidOrderColumn

/-- A catalog entry with every flag false, null age bounds and empty
text fields — the baseline for concrete test entries. -/
def w0 : GovWelfare where
  id := 0
  created_at := ""
  updated_at := ""
  views := 0
  user_type := ""
  service_id := ""
  service_name := ""
  service_summary := ""
  service_category := ""
  service_conditions := ""
  service_description := ""
  offc_name := ""
  dept_name := ""
  dept_type := ""
  dept_code := ""
  apply_period := ""
  apply_method := ""
  apply_url := ""
  document := ""
  receiving_agency := ""
  contact := ""
  support_details := ""
  support_targets := ""
  support_type := ""
  detail_url := ""
  law := ""
  JA0110 := none
  JA0111 := none
  JA0101 := false
  JA0102 := false
  JA0201 := false
  JA0202 := false
  JA0203 := false
  JA0204 := false
  JA0205 := false
  JA0301 := false
  JA0302 := false
  JA0303 := false
  JA0313 := false
  JA0314 := false
  JA0315 := false
  JA0316 := false
  JA0317 := false
  JA0318 := false
  JA0319 := false
  JA0320 := false
  JA0322 := false
  JA0326 := false
  JA0327 := false
  JA0328 := false
  JA0329 := false
  JA0330 := false
  JA0401 := false
  JA0402 := false
  JA0403 := false
  JA0404 := false
  JA0410 := false
  JA0411 := false
  JA0412 := false
  JA0413 := false
  JA0414 := false
  JA1101 := false
  JA1102 := false
  JA1103 := false
  JA1201 := false
  JA1202 := false
  JA1299 := false
  JA2101 := false
  JA2102 := false
  JA2103 := false
  JA2201 := false
  JA2202 := false
  JA2203 := false
  JA2299 := false

/-- A personal profile with every boolean answer false and the nullable
fields unset (`academic_status = 0`, i.e. the enum's `none`). -/
def d0 : UserData where
  overcome := none
  household_size := none
  multicultural := false
  north_korean := false
  single_parent_or_grandparent := false
  homeless := false
  new_resident := false
  multi_child_family := false
  extend_family := false
  disable := false
  veteran := false
  disease := false
  prospective_parents_or_infertility := false
  pregnant := false
  childbirth_or_adoption := false
  farmers := false
  fishermen := false
  livestock_farmers := false
  forestry_workers := false
  unemployed := false
  employed := false
  academic_status := 0

/-- A business profile with all thirteen classification flags false. -/
def b0 : UserBusinessData :=
  ⟨false, false, false, false, false, false, false,
   false, false, false, false, false, false⟩

/-- The reference "current date" threaded for `datetime.now()`. -/
def now0 : PyDate := ⟨2026, 10, 12⟩

/-- An anonymous-ish requester record with both guarded fields unset. -/
def u0 : AuthUser := ⟨none, none⟩

/-- A baseline request: first page, size 10, ordered by `id`, no tag, no
keyword. -/
def dto0 : WelfareDto := ⟨0, 10, "id", none, none⟩

/-- Requester profile of the spec's concrete income scenario: household
size 1 and reported income 1435208, whose ratio against the size-1
threshold 2392013 is 0.6 (1435208 < 0.6 * 2392013 + 1). -/
def dIncome : UserData :=
  { d0 with overcome := some 1435208, household_size := some 1 }

/-- Catalog entry targeting only the 51–75% income bracket (`JA0202`). -/
def eBr202 : GovWelfare := { w0 with JA0202 := true }

/-- Catalog entry targeting only the ≥201% income bracket (`JA0205`). -/
def eBr205 : GovWelfare := { w0 with JA0205 := true }

/-- A requester born 1990-01-01 (age 36 at `now0`). -/
def u1990 : AuthUser := ⟨some ⟨1990, 1, 1⟩, none⟩

/-- Catalog entry with numeric age bounds 20–60. -/
def eAge : GovWelfare := { w0 with JA0110 := some 20, JA0111 := some 60 }

/-- Catalog entry flagged only for elementary-school students. -/
def eElemOnly : GovWelfare := { w0 with JA0317 := true }

/-- Business profile with only the operating-status flag `JA1102`. -/
def bStatus : UserBusinessData := { b0 with JA1102 := true }

/-- Catalog entry requiring only the food-service industry flag
`JA1201` (no status or org-type requirement). -/
def eIndustry : GovWelfare := { w0 with JA1201 := true }

/-- Two catalog entries distinguished only by `id` (for ordering). -/
def eIdTwo : GovWelfare := { w0 with id := 2 }

/-- See `eIdTwo`. -/
def eIdOne : GovWelfare := { w0 with id := 1 }

/-- A request with page size 1. -/
def dtoSize1 : WelfareDto := { dto0 with size := 1 }

/-- A request carrying a keyword matching no test entry. -/
def dtoKw : WelfareDto := { dto0 with keyword := some "zzz" }

/-- A business-type catalog entry whose name holds the token `fund`. -/
def eBizFund : GovWelfare :=
  { w0 with user_type := "법인", service_name := "startup fund", id := 3 }

/-- A request with keyword `fund`. -/
def dtoFund : WelfareDto := { dto0 with keyword := some "fund" }

/-- Is the column name a JA eligibility-flag column (name begins with
`JA`)? -/
def isJaColumn (c : String) : Bool := matchesAt "JA".toList c.toList

/-- A request ordering by `metadata` — a declarative-base attribute of
the model class that is not a mapped catalog column. -/
def dtoMeta : WelfareDto := { dto0 with order_by := "metadata" }

/-- Helper: a string failing the filter predicate is never a member of
the filtered list. -/
theorem pyIn_filter_of_neg (p : String → Bool) (x : String) (hx : p x = false) :
    ∀ l : List String, pyIn x (l.filter p) = false := by
  intro l
  induction l with
  | nil => rfl
  | cons a as ih =>
    by_cases ha : p a
    · rw [List.filter_cons_of_pos ha]
      show (x == a || pyIn x (as.filter p)) = false
      have hxa : (x == a) = false := by
        rcases eq_or_ne x a with h | h
        · subst h; rw [hx] at ha; exact absurd ha (by simp)
        · simp [h]
      rw [hxa, Bool.false_or, ih]
    · rw [List.filter_cons_of_neg ha, ih]

/-- Helper: a member of the base list that passes the filter predicate
is a member of the filtered list. -/
theorem pyIn_filter_of_pos (p : String → Bool) (x : String) (hx : p x = true) :
    ∀ l : List String, x ∈ l → pyIn x (l.filter p) = true := by
  intro l
  induction l with
  | nil => intro h; exact absurd h (List.not_mem_nil x)
  | cons a as ih =>
    intro h
    by_cases ha : p a
    · rw [List.filter_cons_of_pos ha]
      show (x == a || pyIn x (as.filter p)) = true
      rcases List.mem_cons.mp h with h1 | h2
      · subst h1; simp
      · rw [ih h2, Bool.or_true]
    · rw [List.filter_cons_of_neg ha]
      rcases List.mem_cons.mp h with h1 | h2
      · subst h1; rw [hx] at ha; exact absurd rfl ha
      · exact ih h2

/-- Helper: over the business JA codes, membership in
`user_true_ja_attributes` coincides with the profile's flag. -/
theorem pyIn_userTrue (b : UserBusinessData) (ja : String)
    (h : ja ∈ businessJaCodes) :
    pyIn ja (userTrueJaAttributes b) = businessFlag b ja := by
  unfold userTrueJaAttributes
  cases hp : businessFlag b ja
  · exact pyIn_filter_of_neg _ _ hp _
  · exact pyIn_filter_of_pos _ _ hp _ h

/-- Helper: the keys of a projected row are exactly the projection's
column list. -/
theorem projectRow_keys (columns : List String) (e : GovWelfare) :
    (projectRow columns e).map Prod.fst = columns := by
  rw [projectRow, List.map_map]
  exact List.map_id columns

/-- C1 (code bug evaluation): for the profile with household size 1 and
reported income 1435208 (ratio 0.6 of the size-1 threshold 2392013),
the income-bracket builder's predicate REJECTS the entry flagged only
with the 0.75-ceiling bracket `JA0202` and ACCEPTS the entry flagged
only with the `inf`-ceiling bracket `JA0205`: the source never divides
`overcome` by the threshold, so the ceiling walk always falls through
to the last bracket, contradicting the claimed ratio-0.6 ⇒ `JA0202`
selection. -/
theorem c1_overcome_no_division_eval :
    (overcomeFilter (some dIncome)).map (fun p => (p eBr202, p eBr205)) =
      some (false, true) := by decide

/-- C2 (code bug evaluation): for a requester born 1990-01-01 (age 36 at
`now0`), the age filter REJECTS the catalog entry whose age bounds
`JA0110`/`JA0111` are both NULL (the claim says absent bounds are
unbounded, so it must accept), while it correctly accepts bounds 20–60:
the source's `model.JA0110 is None` is a constant-`False` Python
identity test, and a NULL SQL comparison never satisfies the clause. -/
theorem c2_age_null_bounds_eval :
    (ageFilter u1990 now0).map (fun p => (p w0, p eAge)) = some (false, true) := by
  decide

/-- C3 (counterexample): with a loaded profile whose `academic_status`
is unset, the academic-status builder does NOT return `None` — it
returns a predicate, and that predicate even excludes the catalog entry
flagged only for elementary-school students (`JA0317` true, `JA0322`
false), so the dimension does filter despite the null sub-field. -/
theorem c3_academic_unset_counterexample :
    (academicStatusFilter (some d0)).isSome = true ∧
    (academicStatusFilter (some d0)).map (fun p => p eElemOnly) = some false := by
  decide

/-- C3 (amended): with the profile absent every dimension builder
returns `None`; the gender, age and income builders return `None` when
their specific sub-field is null; but the academic-status builder, for
a present profile with unset `academic_status`, returns the fallback
predicate `(all four student flags true) OR (all four false) OR
JA0322`, not `None`. -/
theorem c3_null_dimension_defaults :
    (familyStatusFilter none = none ∧ lifeStatusFilter none = none ∧
     otherStatusFilter none = none ∧ primaryIndustryStatusFilter none = none ∧
     academicStatusFilter none = none ∧ overcomeFilter none = none) ∧
    (∀ u : AuthUser, u.gender = none → genderFilter u = none) ∧
    (∀ (u : AuthUser) (now : PyDate), u.birthdate = none → ageFilter u now = none) ∧
    (∀ d : UserData, d.overcome = none ∨ d.household_size = none →
      overcomeFilter (some d) = none) ∧
    (∀ (d : UserData) (e : GovWelfare), d.academic_status = 0 →
      (academicStatusFilter (some d)).map (fun p => p e) =
        some ((e.JA0317 && e.JA0318 && e.JA0319 && e.JA0320) ||
              (!e.JA0317 && !e.JA0318 && !e.JA0319 && !e.JA0320) ||
              e.JA0322)) := by
  refine ⟨⟨rfl, rfl, rfl, rfl, rfl, rfl⟩, ?_, ?_, ?_, ?_⟩
  · intro u h; simp [genderFilter, h]
  · intro u now h; simp [ageFilter, h]
  · intro d h
    rcases ho : d.overcome with _ | x <;> rcases hh : d.household_size with _ | y <;>
      simp_all [overcomeFilter]
  · intro d e h
    have hlk : pyLookup academicStatusMapping (PyKey.pyInt d.academic_status) = none := by
      simp [academicStatusMapping, pyLookup, pyKeyEq]
    simp only [academicStatusFilter, userDataFilter, hlk, Option.map_some]
    cases h317 : e.JA0317 <;> cases h318 : e.JA0318 <;> cases h319 : e.JA0319 <;>
      cases h320 : e.JA0320 <;> cases h322 : e.JA0322 <;>
      simp [academicStatusMapping, h317, h318, h319, h320, h322]

/-- C3 (witness for the amended theorem): instantiated at the all-false
profile `d0` and the elementary-only entry. -/
theorem c3_null_dimension_defaults_witness :
    genderFilter u0 = none ∧
    (academicStatusFilter (some d0)).map (fun p => p eElemOnly) =
      some ((eElemOnly.JA0317 && eElemOnly.JA0318 && eElemOnly.JA0319 && eElemOnly.JA0320) ||
            (!eElemOnly.JA0317 && !eElemOnly.JA0318 && !eElemOnly.JA0319 && !eElemOnly.JA0320) ||
            eElemOnly.JA0322) :=
  ⟨c3_null_dimension_defaults.2.1 u0 rfl,
   c3_null_dimension_defaults.2.2.2.2 d0 eElemOnly rfl⟩

/-- C10: the family-status predicate compares each catalog flag for
equality with the profile's answer — a profile answering `false` for
multicultural is satisfied by any entry with `JA0401 = false` — and any
entry with the not-applicable flag `JA0410 = true` satisfies the
predicate for every loaded profile. -/
theorem c10_family_equality_semantics :
    ∀ (d : UserData) (e : GovWelfare),
      (d.multicultural = false → e.JA0401 = false →
        (familyStatusFilter (some d)).map (fun p => p e) = some true) ∧
      (e.JA0410 = true →
        (familyStatusFilter (some d)).map (fun p => p e) = some true) := by
  intro d e
  constructor
  · intro h1 h2
    simp [familyStatusFilter, h1, h2]
  · intro h
    simp [familyStatusFilter, h]

/-- C10 (witness): the all-false profile against the all-false entry,
and against the `JA0410`-flagged entry. -/
theorem c10_family_witness :
    (familyStatusFilter (some d0)).map (fun p => p w0) = some true ∧
    (familyStatusFilter (some d0)).map (fun p => p { w0 with JA0410 := true }) =
      some true :=
  ⟨(c10_family_equality_semantics d0 w0).1 rfl rfl,
   (c10_family_equality_semantics d0 { w0 with JA0410 := true }).2 rfl⟩

/-- C4: for a loaded personal profile, the composed demographic
predicate partitions the non-`None` dimension predicates into the fixed
OR-group (family-status, life-stage, other-status,
primary-industry-status) and AND-group (academic-status, income-bracket,
gender, age-range), and equals `AND(*and_group)` when the OR-group is
empty and `AND(OR(*or_group), *and_group)` otherwise; that composed
predicate is the single `and_()` clause held by the `filters` variable.
(Downstream, a tagged request then dies at the `if filters:` truth test
with `TypeError` — which does not touch the claim's composition
statement.) -/
theorem c4_personal_composition :
    ∀ (u : AuthUser) (d : UserData) (now : PyDate) (dto : WelfareDto) (e : GovWelfare),
      (personalDemographic u d now e =
        (let or_group : List Pred :=
          [familyStatusFilter (some d), lifeStatusFilter (some d),
           otherStatusFilter (some d), primaryIndustryStatusFilter (some d)].filterMap id
         let and_group : List Pred :=
          [academicStatusFilter (some d), overcomeFilter (some d),
           genderFilter u, ageFilter u now].filterMap id
         if or_group.isEmpty then and_group.all (fun f => f e)
         else or_group.any (fun f => f e) && and_group.all (fun f => f e))) ∧
      personalFiltersVar (some u) (some d) now =
        PyFilters.clause (personalDemographic u d now) ∧
      personalAssembleFilters (some u) (some d) dto now =
        (if pyTruthy dto.tag then .error .typeError
         else .ok (PyFilters.clause (personalDemographic u d now))) := by
  intro u d now dto e
  refine ⟨rfl, rfl, ?_⟩
  by_cases h : pyTruthy dto.tag <;>
    simp [personalAssembleFilters, personalFiltersVar, pyFiltersTruthy, h]

/-- C5: for a business profile with at least one true classification
flag, the group-requirement filter is the conjunction over the three
fixed groups of "the entry requires nothing from the group OR some
required flag of the entry is also true on the profile"; for a profile
with zero true flags no group-requirement filter is added and only the
tag/keyword/type filters remain. -/
theorem c5_business_group_implication :
    ∀ (b : UserBusinessData) (e : GovWelfare) (dto : WelfareDto),
      ((userTrueJaAttributes b).isEmpty = false →
        (specificFilter (some b)).map (fun p => p e) =
          some (conditionGroups.all (fun g =>
            !(g.2.any (fun ja => entryFlag e ja)) ||
            g.2.any (fun ja => entryFlag e ja && businessFlag b ja)))) ∧
      ((userTrueJaAttributes b).isEmpty = true →
        businessFilters dto (some b) =
          (if pyTruthy dto.tag then [tagPred dto] else []) ++
          (if pyTruthy dto.keyword then [keywordPred dto] else []) ++
          [typeFilter "business"]) := by
  intro b e dto
  constructor
  · intro h
    simp only [specificFilter, h, Bool.false_eq_true, if_false, Option.map_some,
      Option.some.injEq]
    have h1101 := pyIn_userTrue b "JA1101" (by decide)
    have h1102 := pyIn_userTrue b "JA1102" (by decide)
    have h1103 := pyIn_userTrue b "JA1103" (by decide)
    have h1201 := pyIn_userTrue b "JA1201" (by decide)
    have h1202 := pyIn_userTrue b "JA1202" (by decide)
    have h1299 := pyIn_userTrue b "JA1299" (by decide)
    have h2101 := pyIn_userTrue b "JA2101" (by decide)
    have h2102 := pyIn_userTrue b "JA2102" (by decide)
    have h2103 := pyIn_userTrue b "JA2103" (by decide)
    have h2201 := pyIn_userTrue b "JA2201" (by decide)
    have h2202 := pyIn_userTrue b "JA2202" (by decide)
    have h2203 := pyIn_userTrue b "JA2203" (by decide)
    have h2299 := pyIn_userTrue b "JA2299" (by decide)
    simp [conditionGroups, groupCheck, h1101, h1102, h1103, h1201, h1202, h1299,
      h2101, h2102, h2103, h2201, h2202, h2203, h2299]
  · intro h
    simp [businessFilters, specificFilter, h]

/-- C5 (witness): the operating-only business profile against the
industry-requiring entry of the spec's business scenario (its group
conjunction evaluates to exclusion), and the all-false profile, for
which only the type filter remains on a bare request. -/
theorem c5_business_witness :
    ((specificFilter (some bStatus)).map (fun p => p eIndustry) =
      some (conditionGroups.all (fun g =>
        !(g.2.any (fun ja => entryFlag eIndustry ja)) ||
        g.2.any (fun ja => entryFlag eIndustry ja && businessFlag bStatus ja)))) ∧
    businessFilters dto0 (some b0) =
      (if pyTruthy dto0.tag then [tagPred dto0] else []) ++
      (if pyTruthy dto0.keyword then [keywordPred dto0] else []) ++
      [typeFilter "business"] :=
  ⟨(c5_business_group_implication bStatus eIndustry dto0).1 (by decide),
   (c5_business_group_implication b0 eIndustry dto0).2 (by decide)⟩

/-- C6 (counterexample): the personal service's result does not contain
the total count — two catalogs whose totals differ (2 matching entries
vs 1) produce identical results for a size-1 page, which would be
impossible if a `{total, items}` pair were returned.  The unused
`get_page_with_total` would have distinguished them. -/
theorem c6_no_total_counterexample :
    getPersonalWelfare [eIdTwo, eIdOne] dtoSize1 none none now0 =
      getPersonalWelfare [eIdTwo] dtoSize1 none none now0 ∧
    (getPageWithTotal [eIdTwo, eIdOne] 0 1 PyFilters.none personalColumns
        (fun e => colValue e "id")).toOption.map PaginatedResult.total ≠
      (getPageWithTotal [eIdTwo] 0 1 PyFilters.none personalColumns
        (fun e => colValue e "id")).toOption.map PaginatedResult.total := by
  refine ⟨rfl, ?_⟩
  decide

/-- Helper: every row produced by a successful `getPage` is keyed
exactly by the requested column list. -/
theorem getPage_keys (catalog : List GovWelfare) (page size : Nat)
    (filters : PyFilters) (columns : List String) (key : GovWelfare → Value)
    (items : List Row) :
    getPage catalog page size filters columns key = .ok items →
    ∀ r ∈ items, r.map Prod.fst = columns := by
  intro hok r hr
  simp only [getPage] at hok
  split at hok
  · exact absurd hok (by simp)
  · injection hok with h'
    subst h'
    rcases List.mem_map.mp hr with ⟨x, _, hx⟩
    exact hx ▸ projectRow_keys columns x

/-- C6 (amended): both services return only the list of projected row
mappings (no total count is computed or returned — they call `get_page`,
not `get_page_with_total`); every returned item is projected to the
fixed reduced column set of the respective service, and neither column
list contains any JA eligibility-flag column. -/
theorem c6_projection_no_flags :
    (personalColumns.all (fun c => ! isJaColumn c) = true) ∧
    (businessColumns.all (fun c => ! isJaColumn c) = true) ∧
    (∀ (catalog : List GovWelfare) (dto : WelfareDto) (user : Option AuthUser)
       (ud : Option UserData) (now : PyDate) (items : List Row),
      getPersonalWelfare catalog dto user ud now = .ok items →
      ∀ r ∈ items, r.map Prod.fst = personalColumns) ∧
    (∀ (catalog : List GovWelfare) (dto : WelfareDto) (user : Option AuthUser)
       (bd : Option UserBusinessData) (items : List Row),
      getBusinessWelfare catalog dto user bd = .ok items →
      ∀ r ∈ items, r.map Prod.fst = businessColumns) := by
  refine ⟨by decide, by decide, ?_, ?_⟩
  · intro catalog dto user ud now items hok
    by_cases hb : hasAttrGovWelfare dto.order_by = true
    · unfold getPersonalWelfare at hok
      rw [if_pos hb] at hok
      split at hok
      · exact absurd hok (by simp)
      · split at hok
        · exact absurd hok (by simp)
        · exact getPage_keys _ _ _ _ _ _ _ hok
    · rw [getPersonalWelfare.eq_def, if_neg hb] at hok
      exact absurd hok (by simp)
  · intro catalog dto user bd items hok
    by_cases hb : hasAttrGovWelfare dto.order_by = true
    · unfold getBusinessWelfare at hok
      rw [if_pos hb] at hok
      split at hok
      · exact absurd hok (by simp)
      · exact getPage_keys _ _ _ _ _ _ _ hok
    · rw [getBusinessWelfare.eq_def, if_neg hb] at hok
      exact absurd hok (by simp)

/-- Helper: the business WHERE list always holds at least the type
filter, so it is never empty. -/
theorem businessFilters_isEmpty (dto : WelfareDto) (bd : Option UserBusinessData) :
    (businessFilters dto bd).isEmpty = false := by
  unfold businessFilters
  rcases hs : specificFilter bd with _ | f <;>
    by_cases h1 : pyTruthy dto.tag <;> by_cases h2 : pyTruthy dto.keyword <;>
      simp [hs, h1, h2]

/-- C6 (witness for the amended theorem): the single personal row
returned for a one-entry catalog is keyed exactly by `personalColumns`,
and the single business row for the business-type entry by
`businessColumns`. -/
theorem c6_projection_witness :
    (projectRow personalColumns eIdTwo).map Prod.fst = personalColumns ∧
    (projectRow businessColumns eBizFund).map Prod.fst = businessColumns :=
  ⟨c6_projection_no_flags.2.2.1 [eIdTwo] dto0 none none now0
      [projectRow personalColumns eIdTwo] rfl _ (by simp),
   c6_projection_no_flags.2.2.2 [eBizFund] dto0 none none
      [projectRow businessColumns eBizFund] rfl _ (by simp)⟩

/-- C7 (counterexample): a supplied keyword does not filter the personal
result set — the entry `eBizFund`, whose name+summary do not contain the
keyword `zzz`, is still returned by `match_personal`. -/
theorem c7_personal_keyword_counterexample :
    getPersonalWelfare [eBizFund] dtoKw none none now0 =
      .ok [projectRow personalColumns eBizFund] ∧
    tsMatch eBizFund.service_name eBizFund.service_summary "zzz" = false := by
  refine ⟨rfl, ?_⟩
  decide

/-- C7 (amended): only `match_business` applies the keyword filter
(case-insensitive token containment over name+summary);
`match_personal` ignores the keyword entirely — its result is invariant
under any change of the keyword field. -/
theorem c7_keyword_only_business :
    (∀ (catalog : List GovWelfare) (dto : WelfareDto) (user : Option AuthUser)
       (ud : Option UserData) (now : PyDate) (kw : Option String),
      getPersonalWelfare catalog { dto with keyword := kw } user ud now =
        getPersonalWelfare catalog dto user ud now) ∧
    (∀ (dto : WelfareDto) (bd : Option UserBusinessData) (e : GovWelfare),
      pyTruthy dto.keyword = true →
      (businessFilters dto bd).all (fun f => f e) = true →
      tsMatch e.service_name e.service_summary (dto.keyword.getD "") = true) := by
  constructor
  · intro catalog dto user ud now kw
    cases dto
    rfl
  · intro dto bd e hk hall
    have hmem : keywordPred dto ∈ businessFilters dto bd := by
      simp [businessFilters, hk]
    have := List.all_eq_true.mp hall _ hmem
    simpa [keywordPred] using this

/-- C7 (witness for the amended theorem): the business entry whose name
holds the token `fund` passes all business filters for the
keyword-`fund` request, so the containment conclusion evaluates. -/
theorem c7_keyword_witness :
    tsMatch eBizFund.service_name eBizFund.service_summary
      (dtoFund.keyword.getD "") = true :=
  c7_keyword_only_business.2 dtoFund none eBizFund (by decide) (by decide)

/-- C8 (counterexample): `order_by = "metadata"` names no catalog
column, yet no `InvalidOrderColumn` is raised — `hasattr` accepts the
declarative base's `metadata` attribute and the call fails later while
building the ORDER BY expression; moreover, for a valid column a
profile-loaded personal request does not proceed to a result either but
dies with `TypeError` at the `if filters:` truth test. -/
theorem c8_hasattr_counterexample :
    hasAttrGovWelfare "metadata" = true ∧
    govWelfareColumns.contains "metadata" = false ∧
    getBusinessWelfare [] dtoMeta none none = .error .invalidOrderExpression ∧
    ServiceError.invalidOrderExpression ≠ ServiceError.invalidOrderColumn ∧
    getPersonalWelfare [] dto0 (some u0) (some d0) now0 = .error .typeError := by
  exact ⟨by decide, by decide, rfl, by decide, rfl⟩

/-- C8 (amended): both services fail with the invalid-order-column
client error exactly when `order_by` is not an attribute of the model
class (mapped columns plus framework-inherited attributes such as
`metadata`); when `order_by` names a real catalog column, no
`InvalidOrderColumn` is raised, the business query proceeds to a page,
and the personal query proceeds whenever no profile is loaded (a loaded
profile instead dies at the SQLAlchemy clause truth test). -/
theorem c8_order_column_validation :
    ∀ (catalog : List GovWelfare) (dto : WelfareDto) (user : Option AuthUser)
      (ud : Option UserData) (bd : Option UserBusinessData) (now : PyDate),
      (getPersonalWelfare catalog dto user ud now = .error .invalidOrderColumn ↔
        hasAttrGovWelfare dto.order_by = false) ∧
      (getBusinessWelfare catalog dto user bd = .error .invalidOrderColumn ↔
        hasAttrGovWelfare dto.order_by = false) ∧
      (dto.order_by ∈ govWelfareColumns →
        (∃ items, getBusinessWelfare catalog dto user bd = .ok items) ∧
        ((user = none ∨ ud = none) →
          ∃ items, getPersonalWelfare catalog dto user ud now = .ok items)) := by
  intro catalog dto user ud bd now
  by_cases hcol : govWelfareColumns.contains dto.order_by = true
  · have hattr : hasAttrGovWelfare dto.order_by = true := by
      unfold hasAttrGovWelfare
      rw [hcol, Bool.true_or]
    have hmem : dto.order_by ∈ govWelfareColumns := by simpa using hcol
    rcases user with _ | u <;> rcases ud with _ | d <;>
      by_cases ht : pyTruthy dto.tag <;>
      simp [getPersonalWelfare, getBusinessWelfare, personalAssembleFilters,
        personalFiltersVar, pyFiltersTruthy, buildOrderKey, getPage, whereRows,
        businessFilters_isEmpty, hattr, hcol, ht, hmem]
  · have hcolf : govWelfareColumns.contains dto.order_by = false :=
      Bool.eq_false_iff.mpr hcol
    have hnm : dto.order_by ∉ govWelfareColumns := by simpa using hcolf
    by_cases hnc : govWelfareNonColumnAttrs.contains dto.order_by = true
    · have hattr : hasAttrGovWelfare dto.order_by = true := by
        unfold hasAttrGovWelfare
        rw [hnc, Bool.or_true]
      rcases user with _ | u <;> rcases ud with _ | d <;>
        by_cases ht : pyTruthy dto.tag <;>
        simp [getPersonalWelfare, getBusinessWelfare, personalAssembleFilters,
          personalFiltersVar, pyFiltersTruthy, buildOrderKey, getPage, whereRows,
          hattr, hcolf, ht, hnm]
    · have hncf : govWelfareNonColumnAttrs.contains dto.order_by = false :=
        Bool.eq_false_iff.mpr hnc
      have hattr : hasAttrGovWelfare dto.order_by = false := by
        unfold hasAttrGovWelfare
        rw [hcolf, hncf, Bool.false_or]
      simp [getPersonalWelfare, getBusinessWelfare, hattr, hnm]

/-- C8 (witness for the amended theorem): the baseline request
(`order_by = "id"`) is accepted by the business service, and by the
personal service for an anonymous requester, on the empty catalog. -/
theorem c8_order_column_witness :
    (∃ items, getBusinessWelfare [] dto0 none none = .ok items) ∧
    (∃ items, getPersonalWelfare [] dto0 none none now0 = .ok items) :=
  ⟨((c8_order_column_validation [] dto0 none none none now0).2.2 (by decide)).1,
   ((c8_order_column_validation [] dto0 none none none now0).2.2 (by decide)).2
     (Or.inl rfl)⟩

/-- C9 (counterexample): with no loadable profile and no tag, NO filter
at all is applied — not even the personal type discriminator: the
business-type entry `eBizFund` (which fails `typeFilter "user"`) is
returned to an anonymous requester on an untagged request. -/
theorem c9_no_profile_counterexample :
    personalAssembleFilters none none dto0 now0 = .ok PyFilters.none ∧
    getPersonalWelfare [eBizFund] dto0 none none now0 =
      .ok [projectRow personalColumns eBizFund] ∧
    typeFilter "user" eBizFund = false := by
  refine ⟨rfl, rfl, ?_⟩
  decide

/-- C9 (amended): with no loadable profile (anonymous requester, or no
profile row), the WHERE clause is exactly `[tag, type-discriminator]`
when a tag is supplied and empty (no filter at all — full catalog)
when it is not; the keyword is never part of the personal path. -/
theorem c9_no_profile_filters :
    ∀ (user : Option AuthUser) (dto : WelfareDto) (now : PyDate),
      personalAssembleFilters user none dto now =
        .ok (if pyTruthy dto.tag
             then PyFilters.list [tagPred dto, typeFilter "user"]
             else PyFilters.none) := by
  intro user dto now
  cases user <;> by_cases h : pyTruthy dto.tag <;>
    simp [personalAssembleFilters, personalFiltersVar, pyFiltersTruthy, h]

end Fellows
